import Mathlib

/-!
Verification of the quaketrakr dashboard's data-derivation logic
(`src/components/earthquake-card.tsx`, types from `src/unnamed/part_000`).

Magnitudes are modelled as rationals (`ℚ`). A nullable/possibly-undefined
JavaScript magnitude is `Option ℚ`: `none` covers both `null` and
`undefined`, which the code treats identically at every use site
(the filter checks both; in the `significant` count `undefined >= 5`
evaluates to `false` in JavaScript, so `undefined` is excluded there too).
-/

namespace QuakeTrakr

/-- `TimeFrame` from the types file: `"hour" | "day" | "week" | "month"`. -/
inductive TimeFrame where
  | hour | day | week | month
deriving Repr, DecidableEq

/-- The fields of `Earthquake` (with its nested `EarthquakeProperties` and
`EarthquakeGeometry`) that the derivation logic reads. `mag` is `Option ℚ`
because the feed can deliver `null`/`undefined` and the code guards for it. -/
structure Earthquake where
  id : String
  mag : Option ℚ
  place : String
  time : Int
  tsunami : Int
deriving Repr, DecidableEq

/-- The predicate of the `data.features.filter((eq) => ...)` callback:
`mag !== null && mag !== undefined && mag >= filters.minMagnitude &&
mag <= filters.maxMagnitude`. -/
def magPasses (minMagnitude maxMagnitude : ℚ) (eq : Earthquake) : Bool :=
  match eq.mag with
  | none => false
  | some m => decide (minMagnitude ≤ m) && decide (m ≤ maxMagnitude)

/-- `filteredEarthquakes` for present data: `data.features.filter(...)`.
JavaScript's `Array.prototype.filter` is a stable filter, i.e. `List.filter`. -/
def filteredEarthquakes (features : List Earthquake)
    (minMagnitude maxMagnitude : ℚ) : List Earthquake :=
  features.filter (magPasses minMagnitude maxMagnitude)

/-- `filteredEarthquakes` including the `if (!data?.features) return []` guard. -/
def filteredEarthquakesOfData (data : Option (List Earthquake))
    (minMagnitude maxMagnitude : ℚ) : List Earthquake :=
  match data with
  | none => []
  | some features => filteredEarthquakes features minMagnitude maxMagnitude

/-- The `stats` record `{total, avgMagnitude, maxMagnitude, significant}`. -/
structure Stats where
  total : Nat
  avgMagnitude : ℚ
  maxMagnitude : ℚ
  significant : Nat
deriving Repr, DecidableEq

/-- The `magnitudes` intermediate:
`subset.map((eq) => eq.properties.mag).filter((mag): mag is number => mag !== null && mag !== undefined)`. -/
def presentMags (subset : List Earthquake) : List ℚ :=
  subset.filterMap (·.mag)

/-- `Math.max(...magnitudes)` for the guarded non-empty case (the empty case
never reaches `Math.max` because the code returns early when
`magnitudes.length === 0`). -/
def listMax : List ℚ → ℚ
  | [] => 0
  | h :: t => t.foldl max h

/-- The minimum of a magnitude list, used to state the averaging claim. -/
def listMin : List ℚ → ℚ
  | [] => 0
  | h :: t => t.foldl min h

/-- The `significant` count:
`subset.filter((eq) => eq.properties.mag !== null && eq.properties.mag >= 5).length`
(`undefined >= 5` is `false` in JavaScript, so an `undefined` magnitude is
excluded as well). -/
def significantCount (subset : List Earthquake) : Nat :=
  (subset.filter (fun eq =>
    match eq.mag with
    | none => false
    | some m => decide ((5 : ℚ) ≤ m))).length

/-- The `stats` memo body, as a pure function of the filtered subset:
early return of all-zero stats when the subset is empty; a second early
return when no magnitude is present; otherwise total, mean, max and the
significant count. -/
def aggregate (subset : List Earthquake) : Stats :=
  if subset.length = 0 then
    { total := 0, avgMagnitude := 0, maxMagnitude := 0, significant := 0 }
  else
    let magnitudes := presentMags subset
    if magnitudes.length = 0 then
      { total := subset.length, avgMagnitude := 0, maxMagnitude := 0,
        significant := 0 }
    else
      { total := subset.length
        avgMagnitude := (magnitudes.foldl (· + ·) 0) / (magnitudes.length : ℚ)
        maxMagnitude := listMax magnitudes
        significant := significantCount subset }

/-- `FilterState` from the types file:
`{timeframe: TimeFrame, minMagnitude: number, maxMagnitude: number}`. -/
structure FilterState where
  timeframe : TimeFrame
  minMagnitude : ℚ
  maxMagnitude : ℚ
deriving Repr, DecidableEq

/-- The `useState` initial value:
`{ timeframe: "day", minMagnitude: 0, maxMagnitude: 10 }`. -/
def initialFilters : FilterState :=
  { timeframe := .day, minMagnitude := 0, maxMagnitude := 10 }

/-- The three user mutations of the filter controls: the timeframe buttons'
`onClick` and the two sliders' `onValueChange` handlers. -/
inductive FilterAction where
  | setTimeframe (tf : TimeFrame)
  | setMin (v : ℚ)
  | setMax (v : ℚ)
deriving Repr, DecidableEq

/-- Each handler calls `setFilters({ ...filters, field: value })`: a single
field is replaced, the others kept. -/
def applyAction (s : FilterState) : FilterAction → FilterState
  | .setTimeframe tf => { s with timeframe := tf }
  | .setMin v => { s with minMagnitude := v }
  | .setMax v => { s with maxMagnitude := v }

/-- A value the slider can emit: both sliders are rendered with
`min={0} max={10} step={0.1}`, so the emitted value lies in `[0, 10]`. -/
def sliderEmits (v : ℚ) : Prop := 0 ≤ v ∧ v ≤ 10

instance : DecidablePred sliderEmits := fun v =>
  inferInstanceAs (Decidable (0 ≤ v ∧ v ≤ 10))

/-- An action the UI permits: any timeframe, or a slider value in `[0, 10]`;
there is no cross-constraint between the two sliders. -/
def uiAction : FilterAction → Prop
  | .setTimeframe _ => True
  | .setMin v => sliderEmits v
  | .setMax v => sliderEmits v

instance : DecidablePred uiAction := fun a =>
  match a with
  | .setTimeframe _ => inferInstanceAs (Decidable True)
  | .setMin v => inferInstanceAs (Decidable (sliderEmits v))
  | .setMax v => inferInstanceAs (Decidable (sliderEmits v))

/-- The spec's claimed `FilterState` invariant:
`0 ≤ minMagnitude ≤ maxMagnitude ≤ 10`. -/
def filterInvariant (s : FilterState) : Prop :=
  0 ≤ s.minMagnitude ∧ s.minMagnitude ≤ s.maxMagnitude ∧ s.maxMagnitude ≤ 10

instance : DecidablePred filterInvariant := fun s =>
  inferInstanceAs (Decidable
    (0 ≤ s.minMagnitude ∧ s.minMagnitude ≤ s.maxMagnitude ∧ s.maxMagnitude ≤ 10))

/-- The componentwise bounds that the handlers do maintain: each magnitude
field stays in `[0, 10]` (the sliders are clamped independently). -/
def boundsInvariant (s : FilterState) : Prop :=
  0 ≤ s.minMagnitude ∧ s.minMagnitude ≤ 10 ∧
  0 ≤ s.maxMagnitude ∧ s.maxMagnitude ≤ 10

instance : DecidablePred boundsInvariant := fun s =>
  inferInstanceAs (Decidable
    (0 ≤ s.minMagnitude ∧ s.minMagnitude ≤ 10 ∧
     0 ≤ s.maxMagnitude ∧ s.maxMagnitude ≤ 10))

/-- Modelled from the spec: the fetch lifecycle of `useSWR` (the SWR library
is an external dependency, not in this repository). Spec §3 (FeedSnapshot)
and §4.4: `data` is the last good snapshot, replaced wholesale on a
successful fetch; a failed refresh leaves the prior snapshot in place
alongside an error flag. -/
structure AppState where
  data : Option (List Earthquake)
  error : Bool
deriving Repr, DecidableEq

/-- Modelled from the spec: the outcome of one fetch cycle. -/
inductive FetchResult where
  | success (features : List Earthquake)
  | failure
deriving Repr, DecidableEq

/-- Modelled from the spec (§4.4 transitions): a successful fetch replaces
the snapshot and clears the error; a failed fetch retains the snapshot and
raises the error flag. -/
def applyFetch (s : AppState) : FetchResult → AppState
  | .success features => { data := some features, error := false }
  | .failure => { data := s.data, error := true }

/-- The filtered subset the component displays, as a function of the
fetch state: `filteredEarthquakes` with the `!data?.features` guard. -/
def displayedFiltered (s : AppState) (minMagnitude maxMagnitude : ℚ) :
    List Earthquake :=
  filteredEarthquakesOfData s.data minMagnitude maxMagnitude

/-- The statistics the component derives, as a function of the fetch state. -/
def displayedStats (s : AppState) (minMagnitude maxMagnitude : ℚ) : Stats :=
  aggregate (displayedFiltered s minMagnitude maxMagnitude)

/-! Sample events, following the spec's worked scenario (integer-valued
magnitudes so that concrete facts are kernel-decidable). -/

/-- A sample event with a present magnitude of 6. -/
def ev1 : Earthquake := { id := "1", mag := some 6, place := "A", time := 0, tsunami := 0 }

/-- A sample event with an absent magnitude. -/
def ev2 : Earthquake := { id := "2", mag := none, place := "B", time := 0, tsunami := 0 }

/-- A sample event with a present magnitude of 4. -/
def ev3 : Earthquake := { id := "3", mag := some 4, place := "C", time := 0, tsunami := 0 }

/-- A sample event with a present magnitude of 5. -/
def ev4 : Earthquake := { id := "4", mag := some 5, place := "D", time := 0, tsunami := 0 }

/-! Helper lemmas. -/

lemma magPasses_iff (a b : ℚ) (e : Earthquake) :
    magPasses a b e = true ↔ ∃ m, e.mag = some m ∧ a ≤ m ∧ m ≤ b := by
  cases h : e.mag with
  | none => simp [magPasses, h]
  | some m => simp [magPasses, h]

lemma significantCount_le_length (s : List Earthquake) :
    significantCount s ≤ s.length :=
  List.length_filter_le _ s

lemma significantCount_of_presentMags_nil (s : List Earthquake)
    (h : presentMags s = []) : significantCount s = 0 := by
  induction s with
  | nil => rfl
  | cons e t ih =>
    cases hm : e.mag with
    | some m => simp [presentMags, List.filterMap_cons, hm] at h
    | none =>
      have ht : presentMags t = [] := by
        simpa [presentMags, List.filterMap_cons, hm] using h
      simpa [significantCount, List.filter_cons, hm] using ih ht

lemma presentMags_ne_nil (s : List Earthquake)
    (hall : ∀ e ∈ s, e.mag ≠ none) (hne : s ≠ []) : presentMags s ≠ [] := by
  cases s with
  | nil => exact absurd rfl hne
  | cons e t =>
    cases hm : e.mag with
    | none => exact absurd hm (hall e (List.mem_cons_self e t))
    | some m => simp [presentMags, List.filterMap_cons, hm]

lemma le_foldl_max (t : List ℚ) (acc : ℚ) : acc ≤ List.foldl max acc t := by
  induction t generalizing acc with
  | nil => simp
  | cons h t ih =>
    rw [List.foldl_cons]
    exact le_trans (le_max_left acc h) (ih (max acc h))

lemma mem_le_foldl_max (x : ℚ) (t : List ℚ) (acc : ℚ) (hx : x ∈ t) :
    x ≤ List.foldl max acc t := by
  induction t generalizing acc with
  | nil => cases hx
  | cons h t ih =>
    rw [List.foldl_cons]
    rcases List.mem_cons.mp hx with rfl | h2
    · exact le_trans (le_max_right acc x) (le_foldl_max t (max acc x))
    · exact ih (max acc h) h2

lemma mem_le_listMax (x : ℚ) (l : List ℚ) (hx : x ∈ l) : x ≤ listMax l := by
  cases l with
  | nil => cases hx
  | cons h t =>
    rcases List.mem_cons.mp hx with rfl | h2
    · exact le_foldl_max t x
    · exact mem_le_foldl_max x t h h2

lemma foldl_min_le (t : List ℚ) (acc : ℚ) : List.foldl min acc t ≤ acc := by
  induction t generalizing acc with
  | nil => simp
  | cons h t ih =>
    rw [List.foldl_cons]
    exact le_trans (ih (min acc h)) (min_le_left acc h)

lemma foldl_min_le_mem (x : ℚ) (t : List ℚ) (acc : ℚ) (hx : x ∈ t) :
    List.foldl min acc t ≤ x := by
  induction t generalizing acc with
  | nil => cases hx
  | cons h t ih =>
    rw [List.foldl_cons]
    rcases List.mem_cons.mp hx with rfl | h2
    · exact le_trans (foldl_min_le t (min acc x)) (min_le_right acc x)
    · exact ih (min acc h) h2

lemma listMin_le_mem (x : ℚ) (l : List ℚ) (hx : x ∈ l) : listMin l ≤ x := by
  cases l with
  | nil => cases hx
  | cons h t =>
    rcases List.mem_cons.mp hx with rfl | h2
    · exact foldl_min_le t x
    · exact foldl_min_le_mem x t h h2

lemma foldl_add_eq_sum (l : List ℚ) (acc : ℚ) :
    List.foldl (· + ·) acc l = acc + l.sum := by
  induction l generalizing acc with
  | nil => simp
  | cons h t ih =>
    rw [List.foldl_cons, ih, List.sum_cons]
    ring

/-- C1: for every event collection and magnitude bounds, the filter includes
an event iff the event is in the collection and its magnitude is present with
min ≤ magnitude ≤ max; events with absent magnitude are always excluded, and
with min = max only events whose magnitude equals that value pass. -/
theorem filter_includes_iff (features : List Earthquake) (a b : ℚ)
    (e : Earthquake) :
    (e ∈ filteredEarthquakes features a b ↔
      e ∈ features ∧ ∃ m, e.mag = some m ∧ a ≤ m ∧ m ≤ b) ∧
    (e.mag = none → e ∉ filteredEarthquakes features a b) ∧
    (e ∈ filteredEarthquakes features a a ↔ e ∈ features ∧ e.mag = some a) := by
  have hmain : ∀ (lo hi : ℚ), e ∈ filteredEarthquakes features lo hi ↔
      e ∈ features ∧ ∃ m, e.mag = some m ∧ lo ≤ m ∧ m ≤ hi := by
    intro lo hi
    rw [filteredEarthquakes, List.mem_filter, magPasses_iff]
  refine ⟨hmain a b, ?_, ?_⟩
  · intro hnone hmem
    obtain ⟨-, m, hm, -⟩ := (hmain a b).mp hmem
    rw [hnone] at hm
    cases hm
  · rw [hmain a a]
    constructor
    · rintro ⟨hf, m, hm, h1, h2⟩
      refine ⟨hf, ?_⟩
      rw [hm]
      exact congrArg some (le_antisymm h2 h1)
    · rintro ⟨hf, hm⟩
      exact ⟨hf, a, hm, le_refl a, le_refl a⟩

/-- C1 witness: the absent-magnitude event `ev2` is excluded from a concrete
filter output. -/
theorem filter_includes_iff_witness :
    ev2 ∉ filteredEarthquakes [ev1, ev2] 0 10 :=
  (filter_includes_iff [ev1, ev2] 0 10 ev2).2.1 rfl

/-- C2: aggregating the empty subset yields all-zero statistics. -/
theorem aggregate_empty :
    aggregate [] =
      { total := 0, avgMagnitude := 0, maxMagnitude := 0, significant := 0 } :=
  rfl

/-- C3: for every subset, the aggregated significant count equals the number
of subset events whose magnitude is present and ≥ 5, and it is at most the
aggregated total. -/
theorem aggregate_significant_spec (subset : List Earthquake) :
    (aggregate subset).significant = significantCount subset ∧
    (aggregate subset).significant ≤ (aggregate subset).total := by
  by_cases h1 : subset.length = 0
  · have hnil : subset = [] := List.length_eq_zero.mp h1
    subst hnil
    exact ⟨rfl, le_refl 0⟩
  · by_cases h2 : (presentMags subset).length = 0
    · have hpm : presentMags subset = [] := List.length_eq_zero.mp h2
      constructor
      · simp only [aggregate, if_neg h1, if_pos h2]
        exact (significantCount_of_presentMags_nil subset hpm).symm
      · simp only [aggregate, if_neg h1, if_pos h2]
        exact Nat.zero_le _
    · constructor
      · simp only [aggregate, if_neg h1, if_neg h2]
      · simp only [aggregate, if_neg h1, if_neg h2]
        exact significantCount_le_length subset

/-- C5: the filter output is a subsequence of the input (order preserved),
its length is at most the input's length, every output element occurs in the
input, and the empty input yields the empty output. -/
theorem filter_sublist_of_input (features : List Earthquake) (a b : ℚ) :
    (filteredEarthquakes features a b).Sublist features ∧
    (filteredEarthquakes features a b).length ≤ features.length ∧
    (∀ e ∈ filteredEarthquakes features a b, e ∈ features) ∧
    filteredEarthquakes [] a b = [] := by
  refine ⟨List.filter_sublist features, List.length_filter_le _ features, ?_, rfl⟩
  intro e he
  exact (List.mem_filter.mp he).1

/-- C5 witness: membership extraction at a concrete collection. -/
theorem filter_sublist_of_input_witness : ev1 ∈ ([ev1, ev2] : List Earthquake) :=
  (filter_sublist_of_input [ev1, ev2] 0 10).2.2.1 ev1 (by decide)

/-- C6: the filter is idempotent: filtering its own output with the same
bounds returns the same result. -/
theorem filter_idempotent (features : List Earthquake) (a b : ℚ) :
    filteredEarthquakes (filteredEarthquakes features a b) a b
      = filteredEarthquakes features a b := by
  simp only [filteredEarthquakes]
  rw [List.filter_filter]
  exact List.filter_congr (fun e _ => Bool.and_self (magPasses a b e))

/-- C4: for every non-empty subset all of whose events have a present
magnitude, the aggregated average magnitude lies between the minimum and the
maximum of those magnitudes. -/
theorem aggregate_avg_between (subset : List Earthquake)
    (hne : subset ≠ []) (hall : ∀ e ∈ subset, e.mag ≠ none) :
    listMin (presentMags subset) ≤ (aggregate subset).avgMagnitude ∧
    (aggregate subset).avgMagnitude ≤ listMax (presentMags subset) := by
  have h1 : subset.length ≠ 0 := by simpa [List.length_eq_zero] using hne
  have hpm : presentMags subset ≠ [] := presentMags_ne_nil subset hall hne
  have h2 : (presentMags subset).length ≠ 0 := by
    simpa [List.length_eq_zero] using hpm
  have hpos : (0 : ℚ) < ((presentMags subset).length : ℚ) := by
    exact_mod_cast Nat.pos_of_ne_zero h2
  have havg : (aggregate subset).avgMagnitude
      = (presentMags subset).sum / ((presentMags subset).length : ℚ) := by
    simp only [aggregate, if_neg h1, if_neg h2]
    rw [foldl_add_eq_sum, zero_add]
  rw [havg]
  constructor
  · rw [le_div_iff₀ hpos]
    have hb := List.card_nsmul_le_sum (presentMags subset)
      (listMin (presentMags subset)) (fun x hx => listMin_le_mem x _ hx)
    rw [nsmul_eq_mul] at hb
    linarith
  · rw [div_le_iff₀ hpos]
    have hb := List.sum_le_card_nsmul (presentMags subset)
      (listMax (presentMags subset)) (fun x hx => mem_le_listMax x _ hx)
    rw [nsmul_eq_mul] at hb
    linarith

/-- C4 witness: the average of a concrete all-present subset lies between its
minimum and maximum magnitudes. -/
theorem aggregate_avg_between_witness :
    listMin (presentMags [ev1, ev3, ev4])
        ≤ (aggregate [ev1, ev3, ev4]).avgMagnitude ∧
    (aggregate [ev1, ev3, ev4]).avgMagnitude
        ≤ listMax (presentMags [ev1, ev3, ev4]) :=
  aggregate_avg_between [ev1, ev3, ev4] (by decide) (by decide)

/-- C8: every event in a filter output has a present magnitude, so a
non-empty filter output has a non-empty present-magnitude list and the
aggregator's defensive zero branch cannot trigger on it; and if that branch
were reached (non-empty subset, no present magnitude), the result would be
zero statistics except for the total. -/
theorem defensive_branch_unreachable (features : List Earthquake) (a b : ℚ)
    (s : List Earthquake) :
    (∀ e ∈ filteredEarthquakes features a b, e.mag ≠ none) ∧
    (filteredEarthquakes features a b ≠ [] →
      presentMags (filteredEarthquakes features a b) ≠ []) ∧
    (s ≠ [] → presentMags s = [] →
      aggregate s = { total := s.length, avgMagnitude := 0, maxMagnitude := 0,
                      significant := 0 }) := by
  have hall : ∀ e ∈ filteredEarthquakes features a b, e.mag ≠ none := by
    intro e he hnone
    have hp := (List.mem_filter.mp he).2
    obtain ⟨m, hm, -⟩ := (magPasses_iff a b e).mp hp
    rw [hnone] at hm
    cases hm
  refine ⟨hall, fun hne => presentMags_ne_nil _ hall hne, ?_⟩
  intro hne hpm
  have h1 : s.length ≠ 0 := by simpa [List.length_eq_zero] using hne
  have h2 : (presentMags s).length = 0 := by rw [hpm]; rfl
  simp only [aggregate, if_neg h1, if_pos h2]

/-- C8 witness: a concrete non-empty filter output has present magnitudes,
and the defensive branch's output shape on a concrete all-absent subset. -/
theorem defensive_branch_unreachable_witness :
    presentMags (filteredEarthquakes [ev1] 0 10) ≠ [] ∧
    aggregate [ev2] = { total := 1, avgMagnitude := 0, maxMagnitude := 0,
                        significant := 0 } := by
  have h := defensive_branch_unreachable [ev1] 0 10 [ev2]
  exact ⟨h.2.1 (by decide), h.2.2 (by decide) (by decide)⟩

/-- C10: when minMagnitude > maxMagnitude, the filter returns the empty
subset and the derived statistics are all zero. -/
theorem filter_empty_of_min_gt_max (features : List Earthquake) (a b : ℚ)
    (h : b < a) :
    filteredEarthquakes features a b = [] ∧
    aggregate (filteredEarthquakes features a b)
      = { total := 0, avgMagnitude := 0, maxMagnitude := 0,
          significant := 0 } := by
  have hnil : filteredEarthquakes features a b = [] := by
    rw [filteredEarthquakes, List.filter_eq_nil_iff]
    intro e _
    cases hm : e.mag with
    | none => simp [magPasses, hm]
    | some m =>
      simp only [magPasses, hm, Bool.and_eq_true, decide_eq_true_eq, not_and]
      intro h1 h2
      exact absurd (le_trans h1 h2) (not_le.mpr h)
  exact ⟨hnil, by rw [hnil]; rfl⟩

/-- C10 witness: concrete inverted bounds yield the empty subset and zero
statistics. -/
theorem filter_empty_of_min_gt_max_witness :
    filteredEarthquakes [ev1, ev4] 8 3 = [] ∧
    aggregate (filteredEarthquakes [ev1, ev4] 8 3)
      = { total := 0, avgMagnitude := 0, maxMagnitude := 0,
          significant := 0 } :=
  filter_empty_of_min_gt_max [ev1, ev4] 8 3 (by decide)

/-- C7 counterexample: the invariant 0 ≤ min ≤ max ≤ 10 holds in the initial
state and in the state reached by sliding the minimum to 8, yet the
UI-permitted slider mutation setting the maximum to 3 produces a state that
violates it — the sliders carry no cross-constraint. -/
theorem filter_invariant_counterexample :
    filterInvariant initialFilters ∧
    uiAction (FilterAction.setMin 8) ∧
    filterInvariant (applyAction initialFilters (.setMin 8)) ∧
    uiAction (FilterAction.setMax 3) ∧
    ¬ filterInvariant
        (applyAction (applyAction initialFilters (.setMin 8)) (.setMax 3)) := by
  decide

/-- C7 amended: the invariant 0 ≤ min ≤ max ≤ 10 holds in the initial state
(timeframe day, min 0, max 10); every UI mutation preserves the componentwise
bounds 0 ≤ min ≤ 10 and 0 ≤ max ≤ 10, but the relation min ≤ max is not
preserved (see the counterexample). -/
theorem filter_bounds_invariant :
    filterInvariant initialFilters ∧
    initialFilters.timeframe = TimeFrame.day ∧
    initialFilters.minMagnitude = 0 ∧
    initialFilters.maxMagnitude = 10 ∧
    boundsInvariant initialFilters ∧
    (∀ (s : FilterState) (act : FilterAction),
      boundsInvariant s → uiAction act → boundsInvariant (applyAction s act)) := by
  refine ⟨by decide, rfl, rfl, rfl, by decide, ?_⟩
  intro s act hs ha
  cases act with
  | setTimeframe tf => exact hs
  | setMin v => exact ⟨ha.1, ha.2, hs.2.2.1, hs.2.2.2⟩
  | setMax v => exact ⟨hs.1, hs.2.1, ha.1, ha.2⟩

/-- C7 witness: preservation of the componentwise bounds at a concrete state
and mutation. -/
theorem filter_bounds_invariant_witness :
    boundsInvariant (applyAction initialFilters (.setMin 8)) :=
  filter_bounds_invariant.2.2.2.2.2 initialFilters (.setMin 8)
    (by decide) (by decide)

/-- C9: after a successful fetch, a failed refresh retains the snapshot, so
the displayed filtered subset and statistics are unchanged, while the error
flag is raised; the error is not fatal — a later successful fetch clears
it. -/
theorem failed_refresh_retains_views (s : AppState)
    (features : List Earthquake) (a b : ℚ) :
    displayedFiltered (applyFetch (applyFetch s (.success features)) .failure) a b
      = displayedFiltered (applyFetch s (.success features)) a b ∧
    displayedStats (applyFetch (applyFetch s (.success features)) .failure) a b
      = displayedStats (applyFetch s (.success features)) a b ∧
    (applyFetch (applyFetch s (.success features)) .failure).error = true ∧
    (applyFetch (applyFetch s (.success features)) .failure).data
      = (applyFetch s (.success features)).data ∧
    ∀ features2,
      (applyFetch (applyFetch (applyFetch s (.success features)) .failure)
        (.success features2)).error = false :=
  ⟨rfl, rfl, rfl, rfl, fun _ => rfl⟩

end QuakeTrakr
